import Mathlib

/-!
The grpcui file `target.go`: dial orchestration and the target registry

A shallow embedding of `src/target.go`.  Go values that may be `nil`
(errors, connections, credentials) are `Option`s.  Everything outside the
package (the network, the clock, the gRPC library) is an explicit `World`
that is threaded through every call, together with an environment `Env` of
the external functions the file calls.  A Go panic is the `none` of an outer
`Option`.
-/

namespace Grpcui

/-- Go `time.Duration` (a signed count of nanoseconds). -/
abbrev Duration := Int

/-- The carrier types of the external values `target.go` handles but never
inspects.  Each is the type of the non-nil values; `nil` is `Option.none`. -/
structure Types where
  /-- state of everything outside the package: network, clock, gRPC internals -/
  World : Type
  /-- `context.Context` -/
  Context : Type
  /-- non-nil `error` values -/
  Error : Type
  /-- non-nil `net.Conn` values -/
  Conn : Type
  /-- non-nil `credentials.AuthInfo` values -/
  AuthInfo : Type
  /-- non-nil `*grpc.ClientConn` values -/
  ClientConn : Type
  /-- non-nil `credentials.TransportCredentials` values supplied by the caller -/
  Creds : Type
  /-- `grpc.DialOption` values supplied by the caller -/
  DialOption : Type

/-- The two credentials values `dial` can hand to
`grpc.WithTransportCredentials`: `insecurecreds.NewCredentials()` or the
pointer `&errCreds` to its local tracking wrapper. -/
inductive TransportCreds where
  | insecure
  | errTracking
  deriving DecidableEq, Repr

/-- The `grpc.DialOption` values that reach `grpc.DialContext` from `dial`:
the caller's own options, and the three kinds `dial` appends.
`withContextDialer` stands for `grpc.WithContextDialer(dialer.dial)`, the
bound method of the local tracking dialer. -/
inductive DialOpt (T : Types) where
  | user (o : T.DialOption)
  | withTransportCredentials (c : TransportCreds)
  | withBlock
  | withContextDialer

/-- What `grpc.DialContext` does, seen from `dial`: a finite tree of calls
back into the values it was given.  `callDialer` invokes the context dialer
(`dialer.dial`), `callHandshake` invokes `ClientHandshake` on the installed
transport credentials, `world` is any other step of the library (reading the
clock, sleeping between retries) and `ret` is its final `(cc, err)` result.
The continuation receives what the call returned. -/
inductive Prim (T : Types) where
  | ret (cc : Option T.ClientConn) (err : Option T.Error)
  | callDialer (ctx : T.Context) (addr : String)
      (k : Option T.Conn × Option T.Error → Prim T)
  | callHandshake (ctx : T.Context) (addr : String) (rawConn : Option T.Conn)
      (k : Option T.Conn × Option T.AuthInfo × Option T.Error → Prim T)
  | world (f : T.World → T.World) (k : T.World → Prim T)

/-- The external functions called by `target.go`. -/
structure Env (T : Types) where
  /-- `(*net.Dialer).DialContext(ctx, network, addr)` on `&net.Dialer{}` -/
  netDialContext : T.Context → String → String → T.World →
    (Option T.Conn × Option T.Error) × T.World
  /-- `creds.ClientHandshake(ctx, addr, rawConn)` of caller credentials -/
  clientHandshake : T.Creds → T.Context → String → Option T.Conn → T.World →
    (Option T.Conn × Option T.AuthInfo × Option T.Error) × T.World
  /-- `ClientHandshake` of `insecurecreds.NewCredentials()` -/
  insecureHandshake : T.Context → String → Option T.Conn → T.World →
    (Option T.Conn × Option T.AuthInfo × Option T.Error) × T.World
  /-- `grpcurl.BlockingDial(ctx, network, addr, creds, opts...)` -/
  BlockingDial : T.Context → String → String → Option T.Creds →
    List T.DialOption → T.World → (Option T.ClientConn × Option T.Error) × T.World
  /-- `grpc.DialContext(ctx, addr, opts...)` -/
  DialContext : T.Context → String → List (DialOpt T) → Prim T
  /-- `context.WithTimeout(context.Background(), d)`; the context returned -/
  withTimeout : Duration → T.World → T.Context × T.World
  /-- the `cancel` function returned with that context -/
  cancel : T.Context → T.World → T.World

variable {T : Types}

/-! ## The tracking decorators (target.go lines 91-136) -/

/-- `type errTrackingCreds struct`: the embedded credentials (nil in the zero
value) and the last error.  The mutex has no sequential content. -/
structure errTrackingCreds (T : Types) where
  TransportCredentials : Option T.Creds
  lastErr : Option T.Error

/-- `type errTrackingDialer struct`.  The `dialer` field always holds
`&net.Dialer{}`, whose `DialContext` is `Env.netDialContext`. -/
structure errTrackingDialer (T : Types) where
  network : String
  lastErr : Option T.Error

/-- `func (c *errTrackingCreds) ClientHandshake`, lines 98-106.  Returns the
triple, the receiver afterwards and the world afterwards; `none` is the panic
of a method call on the nil embedded interface. -/
def errTrackingCreds.ClientHandshake (env : Env T) (c : errTrackingCreds T)
    (ctx : T.Context) (addr : String) (rawConn : Option T.Conn) (w : T.World) :
    Option ((Option T.Conn × Option T.AuthInfo × Option T.Error) ×
      errTrackingCreds T × T.World) :=
  match c.TransportCredentials with
  | none => none
  | some tc =>
    let r := env.clientHandshake tc ctx addr rawConn w
    match r.1.2.2 with
    | some e => some (r.1, { c with lastErr := some e }, r.2)
    | none => some (r.1, c, r.2)

/-- `func (c *errTrackingCreds) err() error`, lines 108-112. -/
def errTrackingCreds.err (c : errTrackingCreds T) : Option T.Error :=
  c.lastErr

/-- `func (c *errTrackingDialer) dial`, lines 122-130. -/
def errTrackingDialer.dial (env : Env T) (c : errTrackingDialer T)
    (ctx : T.Context) (addr : String) (w : T.World) :
    (Option T.Conn × Option T.Error) × errTrackingDialer T × T.World :=
  let r := env.netDialContext ctx c.network addr w
  match r.1.2 with
  | some e => (r.1, { c with lastErr := some e }, r.2)
  | none => (r.1, c, r.2)

/-- `func (c *errTrackingDialer) err() error`, lines 132-136. -/
def errTrackingDialer.err (c : errTrackingDialer T) : Option T.Error :=
  c.lastErr

/-! ## `dial` (target.go lines 50-89) -/

/-- The locals of the non-fail-fast branch of `dial` while
`grpc.DialContext` runs: the two trackers and the world.  `dialLog` and
`hsLog` are ghost fields: the errors returned, in order, by every call of
`dialer.dial` and of `errCreds.ClientHandshake`. -/
structure DialState (T : Types) where
  dialer : errTrackingDialer T
  errCreds : errTrackingCreds T
  world : T.World
  dialLog : List (Option T.Error)
  hsLog : List (Option T.Error)

/-- Execution of a `grpc.DialContext` call tree against the locals of
`dial`; `tc` is the credentials value `dial` installed. -/
def run (env : Env T) (tc : TransportCreds) :
    Prim T → DialState T → Option (DialState T × Option T.ClientConn × Option T.Error)
  | .ret cc err, st => some (st, cc, err)
  | .callDialer ctx addr k, st =>
    let r := errTrackingDialer.dial env st.dialer ctx addr st.world
    run env tc (k r.1)
      { st with dialer := r.2.1, world := r.2.2, dialLog := st.dialLog ++ [r.1.2] }
  | .callHandshake ctx addr rawConn k, st =>
    match tc with
    | .insecure =>
      let r := env.insecureHandshake ctx addr rawConn st.world
      run env tc (k r.1) { st with world := r.2 }
    | .errTracking =>
      match errTrackingCreds.ClientHandshake env st.errCreds ctx addr rawConn st.world with
      | none => none
      | some r =>
        run env tc (k r.1)
          { st with errCreds := r.2.1, world := r.2.2, hsLog := st.hsLog ++ [r.1.2.2] }
  | .world f k, st => run env tc (k (f st.world)) { st with world := f st.world }

/-- Lines 60-74 of `dial`: build the trackers and the option list and call
`grpc.DialContext`.  Returns the locals afterwards and the `(cc, err)` the
primitive returned. -/
def dialAttempt (env : Env T) (ctx : T.Context) (network addr : String)
    (creds : Option T.Creds) (opts : List T.DialOption) (w : T.World) :
    Option (DialState T × Option T.ClientConn × Option T.Error) :=
  let dialer : errTrackingDialer T := { network := network, lastErr := none }
  let errCreds0 : errTrackingCreds T := { TransportCredentials := none, lastErr := none }
  let p : errTrackingCreds T × TransportCreds :=
    match creds with
    | none => (errCreds0, TransportCreds.insecure)
    | some c => ({ TransportCredentials := some c, lastErr := none }, TransportCreds.errTracking)
  let opts1 : List (DialOpt T) :=
    opts.map DialOpt.user ++ [DialOpt.withTransportCredentials p.2]
  run env p.2
    (env.DialContext ctx addr (opts1 ++ [DialOpt.withBlock, DialOpt.withContextDialer]))
    { dialer := dialer, errCreds := p.1, world := w, dialLog := [], hsLog := [] }

/-- `func dial`, lines 50-89.  Returns `(cc, err)` and the world afterwards. -/
def dial (env : Env T) (ctx : T.Context) (network addr : String)
    (creds : Option T.Creds) (failFast : Bool) (opts : List T.DialOption)
    (w : T.World) : Option ((Option T.ClientConn × Option T.Error) × T.World) :=
  if failFast then
    some (env.BlockingDial ctx network addr creds opts w)
  else
    match dialAttempt env ctx network addr creds opts w with
    | none => none
    | some (st, cc, err) =>
      match err with
      | none => some ((cc, none), st.world)
      | some e0 =>
        match st.errCreds.err with
        | some e => some ((none, some e), st.world)
        | none =>
          match st.dialer.err with
          | some e => some ((none, some e), st.world)
          | none => some ((none, some e0), st.world)

/-! ## The target registry (target.go lines 16-48) -/

/-- The package-level variables of `target.go`. -/
structure Registry (T : Types) where
  targetHost : String
  dialTime : Duration
  dialCreds : Option T.Creds
  dialFailFast : Bool
  dialOpts : List T.DialOption
  grpcConn : Option T.ClientConn

/-- The package state at program start: every variable has its zero value. -/
def Registry.init (T : Types) : Registry T :=
  { targetHost := "", dialTime := 0, dialCreds := none, dialFailFast := false,
    dialOpts := [], grpcConn := none }

/-- `func SetDialOpts`, lines 26-30.  The body assigns `dialTime`,
`dialCreds` and `dialFailFast`; it has no assignment to `dialOpts`. -/
def SetDialOpts (timeout : Duration) (creds : Option T.Creds) (failFast : Bool)
    (_opts : List T.DialOption) (r : Registry T) : Registry T :=
  { r with dialTime := timeout, dialCreds := creds, dialFailFast := failFast }

/-- `func UpdateTarget`, lines 32-44.  Returns the error, the package state
and the world afterwards (the deferred `cancel` has run). -/
def UpdateTarget (env : Env T) (target : String) (r : Registry T) (w : T.World) :
    Option (Option T.Error × Registry T × T.World) :=
  let r1 : Registry T := { r with targetHost := target }
  let c := env.withTimeout r1.dialTime w
  match dial env c.1 "tcp" r1.targetHost r1.dialCreds r1.dialFailFast r1.dialOpts c.2 with
  | none => none
  | some ((cc, err), w2) =>
    match err with
    | some e => some (some e, r1, env.cancel c.1 w2)
    | none => some (none, { r1 with grpcConn := cc }, env.cancel c.1 w2)

/-- `func GetTarget`, lines 46-48: the stored connection, and the package
state afterwards. -/
def GetTarget (r : Registry T) : Option T.ClientConn × Registry T :=
  (r.grpcConn, r)

/-! ## Sequences of calls and the demonstration instance -/

/-- The errors returned by a sequence of calls, in order, reduced to the one
of the most recent call that failed: drop the `nil`s and take the last. -/
def lastFailure {ε : Type} (errs : List (Option ε)) : Option ε :=
  errs.reduceOption.getLast?

/-- A finite sequence of `dial` calls on one tracking dialer.  Returns the
error each call returned, the tracker afterwards and the world afterwards. -/
def errTrackingDialer.dialAll (env : Env T) :
    errTrackingDialer T → List (T.Context × String) → T.World →
      List (Option T.Error) × errTrackingDialer T × T.World
  | c, [], w => ([], c, w)
  | c, call :: rest, w =>
    let r := errTrackingDialer.dial env c call.1 call.2 w
    let s := errTrackingDialer.dialAll env r.2.1 rest r.2.2
    (r.1.2 :: s.1, s.2)

/-- A finite sequence of `ClientHandshake` calls on one tracking wrapper. -/
def errTrackingCreds.handshakeAll (env : Env T) :
    errTrackingCreds T → List (T.Context × String × Option T.Conn) → T.World →
      Option (List (Option T.Error) × errTrackingCreds T × T.World)
  | c, [], w => some ([], c, w)
  | c, call :: rest, w =>
    match errTrackingCreds.ClientHandshake env c call.1 call.2.1 call.2.2 w with
    | none => none
    | some r =>
      match errTrackingCreds.handshakeAll env r.2.1 rest r.2.2 with
      | none => none
      | some s => some (r.1.2.2 :: s.1, s.2)

/-- Carrier types of the demonstration instance: every handle is a number,
the world is a counter of the network operations performed so far. -/
@[reducible] def demoTypes : Types :=
  { World := Nat, Context := Nat, Error := Nat, Conn := Nat, AuthInfo := Nat,
    ClientConn := Nat, Creds := Nat, DialOption := Nat }

/-- Error code of a refused raw connect in the demonstration instance. -/
def errRefused : Nat := 111

/-- Error code of a failed certificate validation. -/
def errBadCert : Nat := 495

/-- Error code of an exhausted deadline. -/
def errDeadline : Nat := 4

/-- Error code of an unparsable target. -/
def errBadTarget : Nat := 3

/-- A retrying connect primitive with at most `n` attempts: raw connect,
then handshake, and on any failure the next attempt; out of attempts it
gives the deadline error. -/
def demoPrim (ctx : Nat) (addr : String) : Nat → Prim demoTypes
  | 0 => Prim.ret none (some errDeadline)
  | n + 1 =>
    Prim.callDialer ctx addr fun r =>
      match r.2 with
      | some _ => demoPrim ctx addr n
      | none =>
        Prim.callHandshake ctx addr r.1 fun h =>
          match h.2.2 with
          | some _ => demoPrim ctx addr n
          | none => Prim.ret (some 42) none

/-- The demonstration environment.  Address `down:1` refuses every raw
connect, `slow:1` refuses the first one only; credentials `0` fail every
handshake; the empty target is rejected by `grpc.DialContext` before any
attempt; the fail-fast primitive hands out connection `100 + len(opts)`. -/
def demoEnv : Env demoTypes :=
  { netDialContext := fun _ _ addr w =>
      if addr = "down:1" ∨ (addr = "slow:1" ∧ w = 0) then ((none, some errRefused), w + 1)
      else ((some 7, none), w + 1)
    clientHandshake := fun tc _ _ rawConn w =>
      if tc = 0 then ((none, none, some errBadCert), w + 1)
      else ((rawConn, some 1, none), w + 1)
    insecureHandshake := fun _ _ rawConn w => ((rawConn, some 0, none), w)
    BlockingDial := fun _ _ addr _ opts w =>
      if addr = "down:1" then ((none, some errRefused), w + 1)
      else ((some (100 + opts.length), none), w + 1)
    DialContext := fun ctx addr _ =>
      if addr = "" then Prim.ret none (some errBadTarget) else demoPrim ctx addr 3
    withTimeout := fun d w => (d.toNat, w)
    cancel := fun _ w => w }

/-- A registry of the demonstration instance connected to `up:1`. -/
def demoRegistry : Registry demoTypes :=
  { targetHost := "up:1", dialTime := 5, dialCreds := none, dialFailFast := true,
    dialOpts := [], grpcConn := some 100 }

/-- The demonstration environment with a `grpc.DialContext` that returns a
nil connection together with a nil error, without making any call. -/
def nilResultEnv : Env demoTypes :=
  { demoEnv with DialContext := fun _ _ _ => Prim.ret none none }

/-! ## Auxiliary lemmas -/

theorem lastFailure_nil {ε : Type} : lastFailure ([] : List (Option ε)) = none := rfl

theorem lastFailure_concat_none {ε : Type} (l : List (Option ε)) :
    lastFailure (l ++ [none]) = lastFailure l := by
  simp [lastFailure, List.reduceOption_append]

theorem lastFailure_concat_some {ε : Type} (l : List (Option ε)) (e : ε) :
    lastFailure (l ++ [some e]) = some e := by
  simp [lastFailure, List.reduceOption_append]

theorem lastFailure_cons_none {ε : Type} (l : List (Option ε)) :
    lastFailure (none :: l) = lastFailure l := by
  simp [lastFailure]

theorem lastFailure_cons_some {ε : Type} (l : List (Option ε)) (e : ε) :
    lastFailure (some e :: l) = some ((lastFailure l).getD e) := by
  simp [lastFailure, List.getLast?_cons]

theorem errTrackingDialer.dial_lastErr (env : Env T) (c : errTrackingDialer T)
    (ctx : T.Context) (addr : String) (w : T.World) :
    (errTrackingDialer.dial env c ctx addr w).2.1.lastErr =
      match (errTrackingDialer.dial env c ctx addr w).1.2 with
      | some e => some e
      | none => c.lastErr := by
  unfold errTrackingDialer.dial
  cases h : (env.netDialContext ctx c.network addr w).1.2 <;> simp [h]

theorem errTrackingDialer.dial_result (env : Env T) (c : errTrackingDialer T)
    (ctx : T.Context) (addr : String) (w : T.World) :
    (errTrackingDialer.dial env c ctx addr w).1 = (env.netDialContext ctx c.network addr w).1 ∧
    (errTrackingDialer.dial env c ctx addr w).2.2 = (env.netDialContext ctx c.network addr w).2 ∧
    (errTrackingDialer.dial env c ctx addr w).2.1.network = c.network := by
  unfold errTrackingDialer.dial
  cases h : (env.netDialContext ctx c.network addr w).1.2 <;> simp [h]

theorem errTrackingCreds.ClientHandshake_some (env : Env T) (c : errTrackingCreds T)
    (tc : T.Creds) (hc : c.TransportCredentials = some tc)
    (ctx : T.Context) (addr : String) (rawConn : Option T.Conn) (w : T.World) :
    ∃ c', errTrackingCreds.ClientHandshake env c ctx addr rawConn w =
        some ((env.clientHandshake tc ctx addr rawConn w).1, c',
          (env.clientHandshake tc ctx addr rawConn w).2) ∧
      c'.TransportCredentials = some tc ∧
      c'.lastErr =
        match (env.clientHandshake tc ctx addr rawConn w).1.2.2 with
        | some e => some e
        | none => c.lastErr := by
  unfold errTrackingCreds.ClientHandshake
  rw [hc]
  cases h : (env.clientHandshake tc ctx addr rawConn w).1.2.2 <;> simp [h, hc]

/-- The invariant of `run`: it never panics when the tracking wrapper, if
installed, wraps non-nil credentials; each slot holds the last failure of its
log; and with insecure credentials the wrapper is never touched. -/
theorem run_spec (env : Env T) (tc : TransportCreds) (p : Prim T) :
    ∀ st : DialState T,
      (tc = TransportCreds.errTracking → st.errCreds.TransportCredentials ≠ none) →
      st.dialer.lastErr = lastFailure st.dialLog →
      st.errCreds.lastErr = lastFailure st.hsLog →
      ∃ st' cc err, run env tc p st = some (st', cc, err) ∧
        st'.dialer.lastErr = lastFailure st'.dialLog ∧
        st'.errCreds.lastErr = lastFailure st'.hsLog ∧
        (tc = TransportCreds.insecure → st'.errCreds = st.errCreds ∧ st'.hsLog = st.hsLog) := by
  induction p with
  | ret cc err =>
    intro st _ hd hc
    exact ⟨st, cc, err, rfl, hd, hc, fun _ => ⟨rfl, rfl⟩⟩
  | callDialer ctx addr k ih =>
    intro st hw hd hc
    have hl := errTrackingDialer.dial_lastErr env st.dialer ctx addr st.world
    obtain ⟨st', cc, err, h1, h2, h3, h4⟩ :=
      ih (errTrackingDialer.dial env st.dialer ctx addr st.world).1
        { st with
          dialer := (errTrackingDialer.dial env st.dialer ctx addr st.world).2.1
          world := (errTrackingDialer.dial env st.dialer ctx addr st.world).2.2
          dialLog := st.dialLog ++ [(errTrackingDialer.dial env st.dialer ctx addr st.world).1.2] }
        hw
        (by
          show (errTrackingDialer.dial env st.dialer ctx addr st.world).2.1.lastErr = _
          rw [hl]
          cases (errTrackingDialer.dial env st.dialer ctx addr st.world).1.2 with
          | none => simpa [lastFailure_concat_none] using hd
          | some e => simp [lastFailure_concat_some])
        hc
    exact ⟨st', cc, err, by simpa [run] using h1, h2, h3, h4⟩
  | callHandshake ctx addr rawConn k ih =>
    intro st hw hd hc
    cases tc with
    | insecure =>
      obtain ⟨st', cc, err, h1, h2, h3, h4⟩ :=
        ih (env.insecureHandshake ctx addr rawConn st.world).1
          { st with world := (env.insecureHandshake ctx addr rawConn st.world).2 } hw hd hc
      exact ⟨st', cc, err, by simpa [run] using h1, h2, h3, h4⟩
    | errTracking =>
      obtain ⟨tcr, htcr⟩ := Option.ne_none_iff_exists'.mp (hw rfl)
      obtain ⟨c', hc1, hc2, hc3⟩ :=
        errTrackingCreds.ClientHandshake_some env st.errCreds tcr htcr ctx addr rawConn st.world
      obtain ⟨st', cc, err, h1, h2, h3, h4⟩ :=
        ih (env.clientHandshake tcr ctx addr rawConn st.world).1
          { st with
            errCreds := c'
            world := (env.clientHandshake tcr ctx addr rawConn st.world).2
            hsLog := st.hsLog ++ [(env.clientHandshake tcr ctx addr rawConn st.world).1.2.2] }
          (fun _ => by simp [hc2])
          hd
          (by
            show c'.lastErr = _
            rw [hc3]
            cases (env.clientHandshake tcr ctx addr rawConn st.world).1.2.2 with
            | none => simpa [lastFailure_concat_none] using hc
            | some e => simp [lastFailure_concat_some])
      exact ⟨st', cc, err, by simpa [run, hc1] using h1, h2, h3, fun h => by cases h⟩
  | world f k ih =>
    intro st hw hd hc
    obtain ⟨st', cc, err, h1, h2, h3, h4⟩ :=
      ih (f st.world) { st with world := f st.world } hw hd hc
    exact ⟨st', cc, err, by simpa [run] using h1, h2, h3, h4⟩

/-- Lines 60-74 of `dial` never panic, and afterwards each tracker slot holds
the last failure among the calls made on it. -/
theorem dialAttempt_spec (env : Env T) (ctx : T.Context) (network addr : String)
    (creds : Option T.Creds) (opts : List T.DialOption) (w : T.World) :
    ∃ st cc err, dialAttempt env ctx network addr creds opts w = some (st, cc, err) ∧
      st.dialer.lastErr = lastFailure st.dialLog ∧
      st.errCreds.lastErr = lastFailure st.hsLog ∧
      (creds = none → st.errCreds.lastErr = none ∧ st.hsLog = []) := by
  cases creds with
  | none =>
    obtain ⟨st, cc, err, h1, h2, h3, h4⟩ :=
      run_spec env TransportCreds.insecure
        (env.DialContext ctx addr
          ((opts.map DialOpt.user ++ [DialOpt.withTransportCredentials TransportCreds.insecure])
            ++ [DialOpt.withBlock, DialOpt.withContextDialer]))
        { dialer := { network := network, lastErr := none }
          errCreds := { TransportCredentials := none, lastErr := none }
          world := w, dialLog := [], hsLog := [] }
        (fun h => by cases h) rfl rfl
    refine ⟨st, cc, err, h1, h2, h3, fun _ => ?_⟩
    obtain ⟨h5, h6⟩ := h4 rfl
    exact ⟨by rw [h5], h6⟩
  | some c =>
    obtain ⟨st, cc, err, h1, h2, h3, _⟩ :=
      run_spec env TransportCreds.errTracking
        (env.DialContext ctx addr
          ((opts.map DialOpt.user ++ [DialOpt.withTransportCredentials TransportCreds.errTracking])
            ++ [DialOpt.withBlock, DialOpt.withContextDialer]))
        { dialer := { network := network, lastErr := none }
          errCreds := { TransportCredentials := some c, lastErr := none }
          world := w, dialLog := [], hsLog := [] }
        (fun _ => by simp) rfl rfl
    exact ⟨st, cc, err, h1, h2, h3, fun h => by cases h⟩

/-- The error selection of `dial`, lines 75-88, as one equation. -/
theorem dial_noFailFast_eq (env : Env T) (ctx : T.Context) (network addr : String)
    (creds : Option T.Creds) (opts : List T.DialOption) (w : T.World)
    (st : DialState T) (cc : Option T.ClientConn) (err : Option T.Error)
    (h : dialAttempt env ctx network addr creds opts w = some (st, cc, err)) :
    dial env ctx network addr creds false opts w =
      match err with
      | none => some ((cc, none), st.world)
      | some e0 =>
        some ((none, some ((st.errCreds.lastErr).getD ((st.dialer.lastErr).getD e0))), st.world) := by
  unfold dial
  simp only [Bool.false_eq_true, if_false, h]
  cases err with
  | none => rfl
  | some e0 =>
    simp only [errTrackingCreds.err, errTrackingDialer.err]
    cases st.errCreds.lastErr <;> cases st.dialer.lastErr <;> rfl

theorem lastFailure_eq_none_iff {ε : Type} (l : List (Option ε)) :
    lastFailure l = none ↔ ∀ x ∈ l, x = none := by
  induction l with
  | nil => simp [lastFailure]
  | cons a l ih =>
    cases a with
    | none => simp [lastFailure_cons_none, ih]
    | some e => simp [lastFailure_cons_some]

theorem lastFailure_eq_some_iff {ε : Type} (l : List (Option ε)) (e : ε) :
    lastFailure l = some e ↔
      ∃ before after, l = before ++ some e :: after ∧ ∀ x ∈ after, x = none := by
  induction l with
  | nil => simp [lastFailure]
  | cons a l ih =>
    constructor
    · intro h
      cases hl : lastFailure l with
      | none =>
        cases a with
        | none => rw [lastFailure_cons_none, hl] at h; cases h
        | some b =>
          rw [lastFailure_cons_some, hl] at h
          simp at h
          subst h
          exact ⟨[], l, rfl, (lastFailure_eq_none_iff l).mp hl⟩
      | some b =>
        have hb : b = e := by
          cases a with
          | none => rw [lastFailure_cons_none, hl] at h; exact Option.some.inj h
          | some c => rw [lastFailure_cons_some, hl] at h; simpa using h
        subst hb
        obtain ⟨before, after, h1, h2⟩ := ih.mp hl
        exact ⟨a :: before, after, by rw [h1]; rfl, h2⟩
    · rintro ⟨before, after, h1, h2⟩
      have hafter : lastFailure after = none := (lastFailure_eq_none_iff after).mpr h2
      cases before with
      | nil =>
        simp only [List.nil_append] at h1
        rw [h1, lastFailure_cons_some, hafter]
        rfl
      | cons b before =>
        simp only [List.cons_append, List.cons.injEq] at h1
        have hl : lastFailure l = some e := ih.mpr ⟨before, after, h1.2, h2⟩
        cases a with
        | none => rw [lastFailure_cons_none, hl]
        | some c => rw [lastFailure_cons_some, hl]; rfl

theorem errTrackingDialer.dialAll_lastErr (env : Env T)
    (calls : List (T.Context × String)) :
    ∀ (c : errTrackingDialer T) (w : T.World),
      (errTrackingDialer.dialAll env c calls w).2.1.lastErr =
        match lastFailure (errTrackingDialer.dialAll env c calls w).1 with
        | some e => some e
        | none => c.lastErr := by
  induction calls with
  | nil => intro c w; rfl
  | cons call rest ih =>
    intro c w
    have hl := errTrackingDialer.dial_lastErr env c call.1 call.2 w
    have hr := ih (errTrackingDialer.dial env c call.1 call.2 w).2.1
      (errTrackingDialer.dial env c call.1 call.2 w).2.2
    simp only [errTrackingDialer.dialAll]
    rw [hr, hl]
    cases h1 : (errTrackingDialer.dial env c call.1 call.2 w).1.2 with
    | none => rw [lastFailure_cons_none]
    | some e =>
      rw [lastFailure_cons_some]
      cases lastFailure (errTrackingDialer.dialAll env
        (errTrackingDialer.dial env c call.1 call.2 w).2.1 rest
        (errTrackingDialer.dial env c call.1 call.2 w).2.2).1 <;> rfl

theorem errTrackingCreds.handshakeAll_lastErr (env : Env T) (tc : T.Creds)
    (calls : List (T.Context × String × Option T.Conn)) :
    ∀ (c : errTrackingCreds T) (w : T.World), c.TransportCredentials = some tc →
      ∃ errs c' w', errTrackingCreds.handshakeAll env c calls w = some (errs, c', w') ∧
        c'.lastErr =
          match lastFailure errs with
          | some e => some e
          | none => c.lastErr := by
  induction calls with
  | nil => intro c w _; exact ⟨[], c, w, rfl, rfl⟩
  | cons call rest ih =>
    intro c w hc
    obtain ⟨c1, h1, h2, h3⟩ :=
      errTrackingCreds.ClientHandshake_some env c tc hc call.1 call.2.1 call.2.2 w
    obtain ⟨errs, c', w', h4, h5⟩ :=
      ih c1 (env.clientHandshake tc call.1 call.2.1 call.2.2 w).2 h2
    refine ⟨(env.clientHandshake tc call.1 call.2.1 call.2.2 w).1.2.2 :: errs, c', w', ?_, ?_⟩
    · simp only [errTrackingCreds.handshakeAll, h1, h4]
    · rw [h5, h3]
      cases (env.clientHandshake tc call.1 call.2.1 call.2.2 w).1.2.2 with
      | none => rw [lastFailure_cons_none]
      | some e =>
        rw [lastFailure_cons_some]
        cases lastFailure errs <;> rfl

/-! ## The claims -/

/-- C1: a `dial` call with `failFast = false` always reaches the result of
`grpc.DialContext` (it does not panic), and when that result is an error `e`,
whatever finite tree of dialer and handshake calls the primitive made, `dial`
returns a nil connection together with (a) the error of the last failing
handshake call on the tracking wrapper if there is one, (b) otherwise the
error of the last failing raw connect call on the tracking dialer if there is
one, (c) otherwise exactly `e`. -/
theorem dial_noFailFast_error (env : Env T) (ctx : T.Context) (network addr : String)
    (creds : Option T.Creds) (opts : List T.DialOption) (w : T.World) :
    ∃ st cc err, dialAttempt env ctx network addr creds opts w = some (st, cc, err) ∧
      ∀ e, err = some e →
        (∀ h, lastFailure st.hsLog = some h →
          dial env ctx network addr creds false opts w = some ((none, some h), st.world)) ∧
        (lastFailure st.hsLog = none → ∀ d, lastFailure st.dialLog = some d →
          dial env ctx network addr creds false opts w = some ((none, some d), st.world)) ∧
        (lastFailure st.hsLog = none → lastFailure st.dialLog = none →
          dial env ctx network addr creds false opts w = some ((none, some e), st.world)) := by
  obtain ⟨st, cc, err, h1, h2, h3, _⟩ := dialAttempt_spec env ctx network addr creds opts w
  refine ⟨st, cc, err, h1, ?_⟩
  intro e he
  subst he
  have hd := dial_noFailFast_eq env ctx network addr creds opts w st cc (some e) h1
  simp only [] at hd
  rw [hd, h2, h3]
  refine ⟨?_, ?_, ?_⟩
  · intro h hh
    rw [hh]; rfl
  · intro hh d hdd
    rw [hh, hdd]; rfl
  · intro hh hdd
    rw [hh, hdd]; rfl

/-- Witness of C1 in the demonstration instance: credentials `0` fail every
handshake at `slow:1`, whose first raw connect is refused; the primitive
gives up with the deadline error and `dial` reports the handshake error. -/
theorem dial_noFailFast_error_witness :
    dial demoEnv 0 "tcp" "slow:1" (some 0) false [] 0 = some ((none, some errBadCert), 5) ∧
    dial demoEnv 0 "tcp" "down:1" (some 0) false [] 0 = some ((none, some errRefused), 3) ∧
    dial demoEnv 0 "tcp" "" (some 0) false [] 0 = some ((none, some errBadTarget), 0) := by
  refine ⟨?_, ?_, ?_⟩
  · obtain ⟨st, cc, err, h, hall⟩ :=
      dial_noFailFast_error demoEnv 0 "tcp" "slow:1" (some 0) [] 0
    have h' : dialAttempt demoEnv 0 "tcp" "slow:1" (some 0) [] 0 =
        some ({ dialer := { network := "tcp", lastErr := some errRefused }
                errCreds := { TransportCredentials := some 0, lastErr := some errBadCert }
                world := 5
                dialLog := [some errRefused, none, none]
                hsLog := [some errBadCert, some errBadCert] }, none, some errDeadline) := rfl
    rw [h'] at h
    cases h
    exact (hall errDeadline rfl).1 errBadCert rfl
  · obtain ⟨st, cc, err, h, hall⟩ :=
      dial_noFailFast_error demoEnv 0 "tcp" "down:1" (some 0) [] 0
    have h' : dialAttempt demoEnv 0 "tcp" "down:1" (some 0) [] 0 =
        some ({ dialer := { network := "tcp", lastErr := some errRefused }
                errCreds := { TransportCredentials := some 0, lastErr := none }
                world := 3
                dialLog := [some errRefused, some errRefused, some errRefused]
                hsLog := [] }, none, some errDeadline) := rfl
    rw [h'] at h
    cases h
    exact (hall errDeadline rfl).2.1 rfl errRefused rfl
  · obtain ⟨st, cc, err, h, hall⟩ :=
      dial_noFailFast_error demoEnv 0 "tcp" "" (some 0) [] 0
    have h' : dialAttempt demoEnv 0 "tcp" "" (some 0) [] 0 =
        some ({ dialer := { network := "tcp", lastErr := none }
                errCreds := { TransportCredentials := some 0, lastErr := none }
                world := 0
                dialLog := []
                hsLog := [] }, none, some errBadTarget) := rfl
    rw [h'] at h
    cases h
    exact (hall errBadTarget rfl).2.2 rfl rfl

/-- C2: with `failFast = true`, `dial` returns exactly the pair (and leaves
exactly the world) that `grpcurl.BlockingDial` returns for the same context,
network, address, credentials and options; and its result does not depend on
the raw dialer, the handshake functions or `grpc.DialContext`, the only
functions through which a tracking decorator could act. -/
theorem dial_failFast (env : Env T) (ctx : T.Context) (network addr : String)
    (creds : Option T.Creds) (opts : List T.DialOption) (w : T.World) :
    dial env ctx network addr creds true opts w =
        some (env.BlockingDial ctx network addr creds opts w) ∧
    ∀ nd ch ih dc,
      dial { env with netDialContext := nd, clientHandshake := ch,
                      insecureHandshake := ih, DialContext := dc }
          ctx network addr creds true opts w =
        dial env ctx network addr creds true opts w := by
  constructor
  · simp [dial]
  · intro nd ch ih dc
    simp [dial]

/-- C7: for a fresh `errTrackingDialer` and every finite sequence of `dial`
calls, `err()` afterwards is the error of the most recent failing call, or
nil if none failed; likewise for a fresh `errTrackingCreds` (wrapping
non-nil credentials) and `ClientHandshake`; and on any tracker state a
successful call leaves the recorded error as it was while a failing call
replaces it with its own error. -/
theorem tracking_last_write_wins (env : Env T) :
    (∀ (network : String) (calls : List (T.Context × String)) (w : T.World),
      (errTrackingDialer.dialAll env { network := network, lastErr := none } calls w).2.1.err =
        lastFailure
          (errTrackingDialer.dialAll env { network := network, lastErr := none } calls w).1) ∧
    (∀ (tc : T.Creds) (calls : List (T.Context × String × Option T.Conn)) (w : T.World),
      ∃ errs c' w',
        errTrackingCreds.handshakeAll env { TransportCredentials := some tc, lastErr := none }
          calls w = some (errs, c', w') ∧
        c'.err = lastFailure errs) ∧
    (∀ (c : errTrackingDialer T) (ctx : T.Context) (addr : String) (w : T.World),
      (errTrackingDialer.dial env c ctx addr w).2.1.err =
        match (errTrackingDialer.dial env c ctx addr w).1.2 with
        | some e => some e
        | none => c.err) ∧
    (∀ (tc : T.Creds) (last : Option T.Error) (ctx : T.Context) (addr : String)
        (rawConn : Option T.Conn) (w : T.World),
      ∃ r c' w',
        errTrackingCreds.ClientHandshake env { TransportCredentials := some tc, lastErr := last }
          ctx addr rawConn w = some (r, c', w') ∧
        c'.err = match r.2.2 with
          | some e => some e
          | none => last) := by
  refine ⟨?_, ?_, ?_, ?_⟩
  · intro network calls w
    have h := errTrackingDialer.dialAll_lastErr env calls
      { network := network, lastErr := none } w
    simp only [errTrackingDialer.err]
    rw [h]
    cases lastFailure
      (errTrackingDialer.dialAll env { network := network, lastErr := none } calls w).1 <;> rfl
  · intro tc calls w
    obtain ⟨errs, c', w', h1, h2⟩ := errTrackingCreds.handshakeAll_lastErr env tc calls
      { TransportCredentials := some tc, lastErr := none } w rfl
    refine ⟨errs, c', w', h1, ?_⟩
    simp only [errTrackingCreds.err]
    rw [h2]
    cases lastFailure errs <;> rfl
  · intro c ctx addr w
    exact errTrackingDialer.dial_lastErr env c ctx addr w
  · intro tc last ctx addr rawConn w
    obtain ⟨c', h1, _, h3⟩ := errTrackingCreds.ClientHandshake_some env
      { TransportCredentials := some tc, lastErr := last } tc rfl ctx addr rawConn w
    exact ⟨_, c', _, h1, h3⟩

/-- C8: the decorators only observe.  `errTrackingCreds.ClientHandshake`
returns exactly the triple (and leaves exactly the world) of the wrapped
credentials' `ClientHandshake` for the same arguments, and
`errTrackingDialer.dial` exactly the pair (and world) of the wrapped dialer
for the decorator's network and that address, whatever error the decorator
has recorded. -/
theorem decorators_transparent (env : Env T) :
    (∀ (tc : T.Creds) (last : Option T.Error) (ctx : T.Context) (addr : String)
        (rawConn : Option T.Conn) (w : T.World),
      (errTrackingCreds.ClientHandshake env { TransportCredentials := some tc, lastErr := last }
          ctx addr rawConn w).map (fun r => (r.1, r.2.2)) =
        some (env.clientHandshake tc ctx addr rawConn w)) ∧
    (∀ (network : String) (last : Option T.Error) (ctx : T.Context) (addr : String)
        (w : T.World),
      ((errTrackingDialer.dial env { network := network, lastErr := last } ctx addr w).1,
        (errTrackingDialer.dial env { network := network, lastErr := last } ctx addr w).2.2) =
        env.netDialContext ctx network addr w) := by
  constructor
  · intro tc last ctx addr rawConn w
    obtain ⟨c', h1, _, _⟩ := errTrackingCreds.ClientHandshake_some env
      { TransportCredentials := some tc, lastErr := last } tc rfl ctx addr rawConn w
    rw [h1]
    rfl
  · intro network last ctx addr w
    obtain ⟨h1, h2, _⟩ := errTrackingDialer.dial_result env
      { network := network, lastErr := last } ctx addr w
    rw [h1, h2]

/-- C9: a `dial` call with `failFast = false` always reaches the result of
`grpc.DialContext`, and when that result is `(cc, nil)`, `dial` returns `cc`
and no error whatever the two trackers recorded during the call. -/
theorem dial_noFailFast_success (env : Env T) (ctx : T.Context) (network addr : String)
    (creds : Option T.Creds) (opts : List T.DialOption) (w : T.World) :
    ∃ st cc err, dialAttempt env ctx network addr creds opts w = some (st, cc, err) ∧
      (err = none →
        dial env ctx network addr creds false opts w = some ((cc, none), st.world)) := by
  obtain ⟨st, cc, err, h1, _⟩ := dialAttempt_spec env ctx network addr creds opts w
  refine ⟨st, cc, err, h1, ?_⟩
  intro he
  subst he
  exact dial_noFailFast_eq env ctx network addr creds opts w st cc none h1

/-- Witness of C9: at `slow:1` the first raw connect is refused and recorded
by the tracking dialer, the second attempt succeeds, and `dial` returns the
connection. -/
theorem dial_noFailFast_success_witness :
    (∃ st, dialAttempt demoEnv 0 "tcp" "slow:1" (some 1) [] 0 = some (st, some 42, none) ∧
      st.dialer.err = some errRefused) ∧
    dial demoEnv 0 "tcp" "slow:1" (some 1) false [] 0 = some ((some 42, none), 3) := by
  have h' : dialAttempt demoEnv 0 "tcp" "slow:1" (some 1) [] 0 =
      some ({ dialer := { network := "tcp", lastErr := some errRefused }
              errCreds := { TransportCredentials := some 1, lastErr := none }
              world := 3
              dialLog := [some errRefused, none]
              hsLog := [none] }, some 42, none) := rfl
  refine ⟨⟨_, h', rfl⟩, ?_⟩
  obtain ⟨st, cc, err, h, hall⟩ :=
    dial_noFailFast_success demoEnv 0 "tcp" "slow:1" (some 1) [] 0
  rw [h'] at h
  cases h
  exact hall rfl

/-- C10 as stated fails: `dial` returns the primitive's connection unchecked
when its error is nil (line 76), so with a `grpc.DialContext` that returns
`(nil, nil)` a `dial` call with `failFast = false` returns `(nil, nil)`. -/
theorem dial_noFailFast_nil_nil :
    (∃ st, dialAttempt nilResultEnv 0 "tcp" "up:1" none [] 0 = some (st, none, none)) ∧
    dial nilResultEnv 0 "tcp" "up:1" none false [] 0 = some ((none, none), 0) :=
  ⟨⟨_, rfl⟩, rfl⟩

/-- C10, amended: for every `dial` call with `failFast = false` in which
`grpc.DialContext` does not return a nil connection together with a nil
error, `dial` returns exactly one of a connection and an error, never
`(nil, nil)`.  When the primitive fails with `e` and neither tracker recorded
an error, the error returned is `e` itself; and when the credentials are nil
the handshake slot stays nil, so on failure the result is the last raw
connect error or else `e`. -/
theorem dial_noFailFast_exactly_one (env : Env T) (ctx : T.Context) (network addr : String)
    (creds : Option T.Creds) (opts : List T.DialOption) (w : T.World)
    (hprim : ∀ st cc, dialAttempt env ctx network addr creds opts w = some (st, cc, none) →
      cc ≠ none) :
    ∃ st pcc perr, dialAttempt env ctx network addr creds opts w = some (st, pcc, perr) ∧
      ∃ cc err, dial env ctx network addr creds false opts w = some ((cc, err), st.world) ∧
        ((cc ≠ none ∧ err = none) ∨ (cc = none ∧ err ≠ none)) ∧
        (∀ e, perr = some e → st.errCreds.err = none → st.dialer.err = none →
          err = some e) ∧
        (creds = none → st.errCreds.err = none ∧
          ∀ e, perr = some e → err = some ((lastFailure st.dialLog).getD e)) := by
  obtain ⟨st, pcc, perr, h1, h2, h3, h4⟩ := dialAttempt_spec env ctx network addr creds opts w
  have hd := dial_noFailFast_eq env ctx network addr creds opts w st pcc perr h1
  refine ⟨st, pcc, perr, h1, ?_⟩
  cases perr with
  | none =>
    refine ⟨pcc, none, hd, Or.inl ⟨hprim st pcc h1, rfl⟩, ?_, ?_⟩
    · intro e he; cases he
    · intro hc
      exact ⟨(h4 hc).1, fun e he => by cases he⟩
  | some e0 =>
    refine ⟨none, _, hd, Or.inr ⟨rfl, by simp⟩, ?_, ?_⟩
    · intro e he hc hdl
      cases he
      simp only [errTrackingCreds.err] at hc
      simp only [errTrackingDialer.err] at hdl
      rw [hc, hdl]
      rfl
    · intro hc
      refine ⟨(h4 hc).1, ?_⟩
      intro e he
      cases he
      rw [(h4 hc).1, h2]
      rfl

/-- Witness of the amended C10, nil credentials.  At `slow:1` the primitive
succeeds with connection `42` after one refused raw connect: the hypothesis
is met by a successful result and `dial` returns the connection and no error.
At `down:1` every raw connect is refused and `dial` returns that error and no
connection. -/
theorem dial_noFailFast_exactly_one_witness :
    (∃ st, dialAttempt demoEnv 0 "tcp" "slow:1" none [] 0 = some (st, some 42, none)) ∧
    dial demoEnv 0 "tcp" "slow:1" none false [] 0 = some ((some 42, none), 2) ∧
    dial demoEnv 0 "tcp" "down:1" none false [] 0 = some ((none, some errRefused), 3) := by
  have hs : dialAttempt demoEnv 0 "tcp" "slow:1" none [] 0 =
      some ({ dialer := { network := "tcp", lastErr := some errRefused }
              errCreds := { TransportCredentials := none, lastErr := none }
              world := 2
              dialLog := [some errRefused, none]
              hsLog := [] }, some 42, none) := rfl
  have hf : dialAttempt demoEnv 0 "tcp" "down:1" none [] 0 =
      some ({ dialer := { network := "tcp", lastErr := some errRefused }
              errCreds := { TransportCredentials := none, lastErr := none }
              world := 3
              dialLog := [some errRefused, some errRefused, some errRefused]
              hsLog := [] }, none, some errDeadline) := rfl
  refine ⟨⟨_, hs⟩, ?_, ?_⟩
  · obtain ⟨st, pcc, perr, h, cc, err, hdial, hone, _, _⟩ :=
      dial_noFailFast_exactly_one demoEnv 0 "tcp" "slow:1" none [] 0
        (by
          intro st cc hst
          rw [hs] at hst
          cases hst
          exact Option.some_ne_none 42)
    rw [hs] at h
    cases h
    have hd : dial demoEnv 0 "tcp" "slow:1" none false [] 0 = some ((some 42, none), 2) := rfl
    exact hd
  · obtain ⟨st, pcc, perr, h, cc, err, hdial, hone, _, hnil⟩ :=
      dial_noFailFast_exactly_one demoEnv 0 "tcp" "down:1" none [] 0
        (by
          intro st cc hst
          rw [hf] at hst
          cases hst)
    rw [hf] at h
    cases h
    have herr : err = some errRefused := (hnil rfl).2 errDeadline rfl
    subst herr
    rcases hone with ⟨_, hn⟩ | ⟨hc, _⟩
    · cases hn
    · subst hc
      exact hdial

/-- C3 as stated fails: in the demonstration instance `UpdateTarget("down:1")`
on a registry connected to `up:1` returns an error and the stored target
endpoint afterwards differs from the one before. -/
theorem UpdateTarget_failure_overwrites_targetHost :
    ∃ e r' w', UpdateTarget demoEnv "down:1" demoRegistry 0 = some (some e, r', w') ∧
      r'.targetHost ≠ demoRegistry.targetHost :=
  ⟨errRefused, { demoRegistry with targetHost := "down:1" }, 1, rfl, by decide⟩

/-- C3, amended: if `UpdateTarget(endpoint)` returns an error, then the
stored connection and the stored dial configuration are the same after the
call as before, the stored target endpoint is the given endpoint (it is
assigned before the dial), and the error is exactly the error `dial` returned
for that endpoint and the stored configuration. -/
theorem UpdateTarget_failure (env : Env T) (endpoint : String) (r : Registry T)
    (w : T.World) (e : T.Error) (r' : Registry T) (w' : T.World)
    (h : UpdateTarget env endpoint r w = some (some e, r', w')) :
    r' = { r with targetHost := endpoint } ∧
    r'.grpcConn = r.grpcConn ∧ r'.dialTime = r.dialTime ∧ r'.dialCreds = r.dialCreds ∧
    r'.dialFailFast = r.dialFailFast ∧ r'.dialOpts = r.dialOpts ∧
    ∃ cc w2,
      dial env (env.withTimeout r.dialTime w).1 "tcp" endpoint r.dialCreds r.dialFailFast
        r.dialOpts (env.withTimeout r.dialTime w).2 = some ((cc, some e), w2) := by
  unfold UpdateTarget at h
  simp only [] at h
  cases hd : dial env (env.withTimeout r.dialTime w).1 "tcp" endpoint r.dialCreds
      r.dialFailFast r.dialOpts (env.withTimeout r.dialTime w).2 with
  | none => rw [hd] at h; cases h
  | some res =>
    obtain ⟨⟨cc, err⟩, w2⟩ := res
    rw [hd] at h
    cases err with
    | none => simp at h
    | some e1 =>
      simp only [Option.some.injEq, Prod.mk.injEq] at h
      obtain ⟨he, hr, _⟩ := h
      subst he
      subst hr
      exact ⟨rfl, rfl, rfl, rfl, rfl, rfl, cc, w2, rfl⟩

/-- Witness of the amended C3 in the demonstration instance. -/
theorem UpdateTarget_failure_witness :
    UpdateTarget demoEnv "down:1" demoRegistry 0 =
        some (some errRefused, { demoRegistry with targetHost := "down:1" }, 1) ∧
    ({ demoRegistry with targetHost := "down:1" } : Registry demoTypes).grpcConn =
      demoRegistry.grpcConn :=
  ⟨rfl, (UpdateTarget_failure demoEnv "down:1" demoRegistry 0 errRefused
    { demoRegistry with targetHost := "down:1" } 1 rfl).2.1⟩

/-- C4 at the failing input: `SetDialOpts(5, nil, true, o)` with one extra
option leaves the stored extra options empty (in general: as they were), so
the next `UpdateTarget("up:1")` dials without the option and stores connection
`100`, where a dial with the option gives connection `101`. -/
theorem SetDialOpts_drops_opts :
    (SetDialOpts 5 none true [9] (Registry.init demoTypes)).dialOpts = [] ∧
    UpdateTarget demoEnv "up:1" (SetDialOpts 5 none true [9] (Registry.init demoTypes)) 0 =
      some (none,
        { targetHost := "up:1", dialTime := 5, dialCreds := none, dialFailFast := true,
          dialOpts := [], grpcConn := some 100 }, 1) ∧
    dial demoEnv 5 "tcp" "up:1" none true [9] 0 = some ((some 101, none), 1) ∧
    ∀ (timeout : Duration) (creds : Option demoTypes.Creds) (failFast : Bool)
      (opts : List demoTypes.DialOption) (r : Registry demoTypes),
      (SetDialOpts timeout creds failFast opts r).dialOpts = r.dialOpts :=
  ⟨rfl, rfl, rfl, fun _ _ _ _ _ => rfl⟩

/-- C5: if the dial performed by `UpdateTarget(endpoint)` succeeds with
connection `cc`, then `UpdateTarget` returns no error and afterwards the
stored endpoint is `endpoint` and the stored connection is `cc`, which is
what `GetTarget()` returns; the dial configuration is unchanged. -/
theorem UpdateTarget_success (env : Env T) (endpoint : String) (r : Registry T)
    (w : T.World) (cc : Option T.ClientConn) (w2 : T.World)
    (h : dial env (env.withTimeout r.dialTime w).1 "tcp" endpoint r.dialCreds r.dialFailFast
      r.dialOpts (env.withTimeout r.dialTime w).2 = some ((cc, none), w2)) :
    ∃ r' w', UpdateTarget env endpoint r w = some (none, r', w') ∧
      r'.targetHost = endpoint ∧ r'.grpcConn = cc ∧ (GetTarget r').1 = cc ∧
      r'.dialTime = r.dialTime ∧ r'.dialCreds = r.dialCreds ∧
      r'.dialFailFast = r.dialFailFast ∧ r'.dialOpts = r.dialOpts := by
  refine ⟨{ r with targetHost := endpoint, grpcConn := cc },
    env.cancel (env.withTimeout r.dialTime w).1 w2, ?_, rfl, rfl, rfl, rfl, rfl, rfl, rfl⟩
  unfold UpdateTarget
  simp only []
  rw [h]

/-- Witness of C5: from the initial registry configured fail-fast,
`UpdateTarget("up:1")` stores the endpoint and connection `100`. -/
theorem UpdateTarget_success_witness :
    ∃ r' w', UpdateTarget demoEnv "up:1"
        (SetDialOpts 5 none true [] (Registry.init demoTypes)) 0 = some (none, r', w') ∧
      r'.targetHost = "up:1" ∧ r'.grpcConn = some 100 ∧ (GetTarget r').1 = some 100 := by
  obtain ⟨r', w', h1, h2, h3, h4, _⟩ :=
    UpdateTarget_success demoEnv "up:1" (SetDialOpts 5 none true [] (Registry.init demoTypes))
      0 (some 100) 1 rfl
  exact ⟨r', w', h1, h2, h3, h4⟩

/-- C6: a failing `UpdateTarget` leaves `GetTarget()` returning the handle it
returned before (the nil of the initial state included); `GetTarget` does not
change the registry, so two calls in a row, also with a `SetDialOpts` between
them, return the same handle. -/
theorem GetTarget_failure_isolation (env : Env T) :
    (∀ (endpoint : String) (r : Registry T) (w : T.World) (e : T.Error)
        (r' : Registry T) (w' : T.World),
      UpdateTarget env endpoint r w = some (some e, r', w') →
        (GetTarget r').1 = (GetTarget r).1) ∧
    (∀ r : Registry T, (GetTarget r).2 = r ∧ (GetTarget (GetTarget r).2).1 = (GetTarget r).1) ∧
    (∀ (r : Registry T) (timeout : Duration) (creds : Option T.Creds) (failFast : Bool)
        (opts : List T.DialOption),
      (GetTarget (SetDialOpts timeout creds failFast opts (GetTarget r).2)).1 =
        (GetTarget r).1) ∧
    (GetTarget (Registry.init T)).1 = none := by
  refine ⟨?_, fun _ => ⟨rfl, rfl⟩, fun _ _ _ _ _ => rfl, rfl⟩
  intro endpoint r w e r' w' h
  unfold UpdateTarget at h
  simp only [] at h
  cases hd : dial env (env.withTimeout r.dialTime w).1 "tcp" endpoint r.dialCreds
      r.dialFailFast r.dialOpts (env.withTimeout r.dialTime w).2 with
  | none => rw [hd] at h; cases h
  | some res =>
    obtain ⟨⟨cc, err⟩, w2⟩ := res
    rw [hd] at h
    cases err with
    | none => simp at h
    | some e1 =>
      simp only [Option.some.injEq, Prod.mk.injEq] at h
      obtain ⟨_, hr, _⟩ := h
      subst hr
      rfl

/-- Witness of C6: configure, `UpdateTarget("up:1")` succeeds with connection
`100`, `UpdateTarget("down:1")` fails, and `GetTarget()` still returns `100`;
on the initial registry a failing update leaves it nil. -/
theorem GetTarget_failure_isolation_witness :
    UpdateTarget demoEnv "up:1" (SetDialOpts 5 none true [] (Registry.init demoTypes)) 0 =
      some (none, demoRegistry, 1) ∧
    (∃ r' w', UpdateTarget demoEnv "down:1" demoRegistry 1 = some (some errRefused, r', w') ∧
      (GetTarget r').1 = some 100) ∧
    (∃ r' w', UpdateTarget demoEnv "down:1" (Registry.init demoTypes) 0 =
        some (some errRefused, r', w') ∧ (GetTarget r').1 = none) := by
  refine ⟨rfl, ⟨{ demoRegistry with targetHost := "down:1" }, 2, rfl, ?_⟩,
    ⟨{ Registry.init demoTypes with targetHost := "down:1" }, 3, rfl, ?_⟩⟩
  · exact (GetTarget_failure_isolation demoEnv).1 "down:1" demoRegistry 1 errRefused
      { demoRegistry with targetHost := "down:1" } 2 rfl
  · exact (GetTarget_failure_isolation demoEnv).1 "down:1" (Registry.init demoTypes) 0
      errRefused { Registry.init demoTypes with targetHost := "down:1" } 3 rfl

end Grpcui
